import Mathlib

/-!
Verification of the analysis-and-conversation orchestration logic of
`src/app.py` (Multimodal AI Developer Assistant).

The Python source is shallowly embedded: pure functions become Lean
functions; the two network-calling functions (`analyse_screenshots`,
`followup_conversation`) are split into a pure precondition/request stage
and a pure response-handling stage, with the outcome of the external model
call passed in explicitly.  Python strings are Lean `String`s, Python
dynamic values parsed from JSON are the inductive `Json` below, and the
exceptions raised while formatting are an `Except String` whose error text
abstracts the Python exception message (no claim inspects that text).
JSON numbers are modelled in the decimal form of their source text
(`JNum` below); whole numbers print as integers, matching the Python ints
the claims exercise.
-/

set_option maxRecDepth 2000000

namespace App

/-! ### Character-list string primitives (kernel-friendly) -/

/-- Boolean prefix test on character lists. -/
def listPrefixOfB : List Char → List Char → Bool
  | [], _ => true
  | _ :: _, [] => false
  | a :: as, b :: bs => a == b && listPrefixOfB as bs

/-- Boolean substring (contiguous) test on character lists. -/
def listContainsB (pat : List Char) : List Char → Bool
  | [] => listPrefixOfB pat []
  | c :: cs => listPrefixOfB pat (c :: cs) || listContainsB pat cs

/-- Python `s.startswith(p)`. -/
def pyStartsWith (s p : String) : Bool :=
  listPrefixOfB p.data s.data

/-- Python `p in s` (substring containment). -/
def strContainsB (s p : String) : Bool :=
  listContainsB p.data s.data

/-- Substring containment as a proposition: `p` occurs contiguously in `s`. -/
def ContainsP (p s : String) : Prop :=
  ∃ u v : List Char, s.data = u ++ p.data ++ v

/-- Character index of the first occurrence of a pattern, if any. -/
def listFindIdxB (pat : List Char) : List Char → Option Nat
  | [] => if listPrefixOfB pat [] then some 0 else none
  | c :: cs =>
      if listPrefixOfB pat (c :: cs) then some 0
      else (listFindIdxB pat cs).map (· + 1)

/-- Index of the first occurrence of `p` in `s`, if any. -/
def strFindIdx (s p : String) : Option Nat :=
  listFindIdxB p.data s.data

/-- Python `str.lower()` (ASCII-relevant part, via `Char.toLower`). -/
def pyLower (s : String) : String :=
  ⟨s.data.map Char.toLower⟩

/-- Characters Python's default `str.strip()` removes. -/
def pyIsSpace (c : Char) : Bool :=
  c == ' ' || c == '\t' || c == '\n' || c == '\x0d' || c == '\x0b' || c == '\x0c'

/-- Python `str.strip()`: drop leading and trailing whitespace. -/
def pyStrip (s : String) : String :=
  ⟨((s.data.dropWhile pyIsSpace).reverse.dropWhile pyIsSpace).reverse⟩

/-- Titlecase helper: `prevAlpha` records whether the previous character was
alphabetic. -/
def pyTitleAux : Bool → List Char → List Char
  | _, [] => []
  | prevAlpha, c :: cs =>
    if c.isAlpha then
      (if prevAlpha then c.toLower else c.toUpper) :: pyTitleAux true cs
    else
      c :: pyTitleAux false cs

/-- Python `str.title()`: first letter of every alphabetic run uppercased,
the rest lowercased. -/
def pyTitle (s : String) : String :=
  ⟨pyTitleAux false s.data⟩

/-- Worker for `replaceAllL`: every step consumes at least one character,
so a fuel of the list's length suffices; fuel keeps the recursion
structural. -/
def replaceGo (old new : List Char) : Nat → List Char → List Char
  | _, [] => []
  | 0, rest => rest
  | fuel + 1, c :: cs =>
      if listPrefixOfB old (c :: cs) && !old.isEmpty then
        new ++ replaceGo old new fuel ((c :: cs).drop old.length)
      else
        c :: replaceGo old new fuel cs

/-- Python `str.replace(old, new)` on character lists: non-overlapping,
left to right.  (Python's behaviour for empty `old` is not exercised by the
source, which only replaces `"screenshot_"` and `"_"`.) -/
def replaceAllL (old new l : List Char) : List Char :=
  replaceGo old new l.length l

/-- Python `s.replace(old, new)`. -/
def pyReplace (s old new : String) : String :=
  ⟨replaceAllL old.data new.data s.data⟩

/-! ### JSON values (results of `json.loads`) -/

/-- A JSON number, kept in the decimal form of its source text:
`num / 10 ^ exp`.  (JSON numbers are decimal literals; Python's int/float
split is not observable in the claims, which only render integral
numbers.) -/
structure JNum where
  num : Int
  exp : Nat
deriving DecidableEq

/-- Dynamic JSON value as produced by Python's `json.loads`. -/
inductive Json where
  | null
  | bool (b : Bool)
  | num (q : JNum)
  | str (s : String)
  | arr (xs : List Json)
  | obj (fields : List (String × Json))

/-- Python truthiness of a JSON-decoded value. -/
def jsonTruthy : Json → Bool
  | .null => false
  | .bool b => b
  | .num q => !(q.num == 0)
  | .str s => !(s == "")
  | .arr xs => !xs.isEmpty
  | .obj fs => !fs.isEmpty

/-- First-match association lookup (keys of a dict produced by `json.loads`
are unique, so first-match equals Python's dict lookup). -/
def lookupField (k : String) : List (String × Json) → Option Json
  | [] => none
  | (k', v) :: rest => if k' == k then some v else lookupField k rest

/-- Numeric value of a digit run. -/
def digitsToNat (l : List Char) : Nat :=
  l.foldl (fun a c => a * 10 + (c.toNat - 48)) 0

/-- Decimal representation of a JSON number: `str()` of the Python int for
whole numbers, a plain positional decimal otherwise.  (The shortest-repr
quirks of `str()` on floats are not modelled; no claim prints a
non-integral number outside the `:.0f` percentage path.) -/
def jsonNumRepr (q : JNum) : String :=
  if q.exp == 0 then q.num.repr
  else
    let sign := if q.num < 0 then "-" else ""
    let digits := q.num.natAbs.repr.data
    let padded := List.replicate (q.exp + 1 - digits.length) '0' ++ digits
    sign ++ ⟨padded.take (padded.length - q.exp)⟩ ++ "." ++ ⟨padded.drop (padded.length - q.exp)⟩

/-- Python `str()` in repr position (elements inside containers). -/
def pyReprJ : Json → String
  | .null => "None"
  | .bool b => if b then "True" else "False"
  | .num q => jsonNumRepr q
  | .str s => "\x27" ++ s ++ "\x27"
  | .arr xs =>
      "[" ++ String.intercalate ", " (xs.attach.map (fun x => pyReprJ x.1)) ++ "]"
  | .obj fs =>
      "\x7b" ++
        String.intercalate ", "
          (fs.attach.map (fun kv => "\x27" ++ kv.1.1 ++ "\x27: " ++ pyReprJ kv.1.2)) ++
      "\x7d"
termination_by j => sizeOf j
decreasing_by
  · obtain ⟨x, hm⟩ := x
    have := List.sizeOf_lt_of_mem hm
    simp_all
    omega
  · obtain ⟨⟨k, v⟩, hm⟩ := kv
    have := List.sizeOf_lt_of_mem hm
    simp_all
    omega

/-- Python `str()` of a JSON-decoded value, as interpolated by an
f-string: atoms print directly, containers print their repr. -/
def pyStrJ : Json → String
  | .null => "None"
  | .bool b => if b then "True" else "False"
  | .num q => jsonNumRepr q
  | .str s => s
  | .arr xs => pyReprJ (.arr xs)
  | .obj fs => pyReprJ (.obj fs)

/-- Python `dict.get(key, default)`; raises `AttributeError` when the
receiver is not a dict (the exception text is abstracted). -/
def pyGet (receiver : Json) (key : String) (dflt : Json) : Except String Json :=
  match receiver with
  | .obj fields => .ok ((lookupField key fields).getD dflt)
  | _ => .error "AttributeError: object has no attribute get"

/-- Python `str.title()` applied to a JSON value: raises unless a string. -/
def pyTitleJ : Json → Except String String
  | .str s => .ok (pyTitle s)
  | _ => .error "AttributeError: object has no attribute title"

/-- Left-to-right decimal parse of `float(...)` on a string, covering the
plain `digits[.digits]` forms with optional sign. -/
def parseDecimal (s : String) : Except String JNum :=
  let core (sign : Int) (l : List Char) : Except String JNum :=
    let intPart := l.takeWhile Char.isDigit
    let rest := l.dropWhile Char.isDigit
    if intPart.isEmpty then .error "ValueError: could not convert string to float"
    else
      match rest with
      | [] => .ok ⟨sign * digitsToNat intPart, 0⟩
      | '.' :: fracs =>
          if fracs.all Char.isDigit && !fracs.isEmpty then
            .ok ⟨sign * (digitsToNat intPart * 10 ^ fracs.length + digitsToNat fracs),
                 fracs.length⟩
          else .error "ValueError: could not convert string to float"
      | _ => .error "ValueError: could not convert string to float"
  match s.data with
  | '-' :: rest => core (-1) rest
  | l => core 1 l

/-- Python `float(x)` on a JSON-decoded value. -/
def pyFloatJ : Json → Except String JNum
  | .num q => .ok q
  | .bool b => .ok (if b then ⟨1, 0⟩ else ⟨0, 0⟩)
  | .str s => parseDecimal s
  | _ => .error "TypeError: float argument must be a string or a number"

/-- Round half to even at integer precision, as Python's `format(x, ".0f")`
does (the float artefacts of binary doubles are not modelled; no claim
exercises a tie or a value whose double differs from its decimal). -/
def roundHalfEven (q : JNum) : ℤ :=
  let d : Int := (10 : Int) ^ q.exp
  let f := Int.fdiv q.num d
  let r := q.num - f * d
  if 2 * r < d then f
  else if d < 2 * r then f + 1
  else if f % 2 == 0 then f else f + 1

/-- Multiplication by 100 in decimal form. -/
def jnumTimes100 (q : JNum) : JNum :=
  ⟨q.num * 100, q.exp⟩

/-- The `:.0f` percentage figure: `float(confidence) * 100` rounded. -/
def pctRepr (q : JNum) : String :=
  (roundHalfEven (jnumTimes100 q)).repr

/-! ### Result Renderer: `format_json_for_display` (src/app.py lines 107-159) -/

/-- The `severity_emoji` dict literal. -/
def severity_emoji_table : List (String × String) :=
  [("critical", "🔴"), ("warning", "🟡"), ("info", "🔵")]

/-- Assoc lookup on a string-keyed table. -/
def lookupStr (k : String) : List (String × String) → Option String
  | [] => none
  | (k', v) :: rest => if k' == k then some v else lookupStr k rest

/-- `severity_emoji.get(severity, "⚪")`: a dict lookup keyed by strings; a
non-string key simply misses and yields the default. -/
def severityEmojiGet (sev : Json) : String :=
  match sev with
  | .str s => (lookupStr s severity_emoji_table).getD "⚪"
  | _ => "⚪"

/-- One line of the screenshot breakdown:
`f"**Screenshot {screenshot_num}:** {description}  \n"` with
`screenshot_num = key.replace("screenshot_", "").replace("_", " ").title()`. -/
def screenshotLine (key : String) (description : Json) : String :=
  "**Screenshot " ++ pyTitle (pyReplace (pyReplace key "screenshot_" "") "_" " ") ++
    ":** " ++ pyStrJ description ++ "  \n"

/-- The `for key, description in screenshot_breakdown.items()` loop body:
lines are appended in the dict's iteration (insertion) order, skipping
falsy descriptions. -/
def screenshotEntries : List (String × Json) → String
  | [] => ""
  | (k, d) :: rest =>
      (if jsonTruthy d then screenshotLine k d else "") ++ screenshotEntries rest

/-- `screenshot_section` for a dict-valued breakdown: empty for an empty
dict (falsy), otherwise the header plus the entry lines. -/
def screenshotSectionStr (entries : List (String × Json)) : String :=
  if entries.isEmpty then "" else "\n## Screenshot Analysis\n\n" ++ screenshotEntries entries

/-- `screenshot_section` computation: a truthy non-dict breakdown raises at
`.items()`; a falsy one leaves the section empty. -/
def screenshotSection : Json → Except String String
  | .obj entries => .ok (screenshotSectionStr entries)
  | j => if jsonTruthy j then .error "AttributeError: object has no attribute items"
         else .ok ""

/-- The `try` body of `format_json_for_display`, with every operation that
can raise returning in `Except`. -/
def format_core (data : Json) : Except String String := do
  let error_analysis ← pyGet data "error_analysis" (.obj [])
  let environment ← pyGet data "environment" (.obj [])
  let screenshot_breakdown ← pyGet data "screenshot_breakdown" (.obj [])
  let severity ← pyGet error_analysis "severity" (.str "unknown")
  let severity_emoji := severityEmojiGet severity
  let screenshot_section ← screenshotSection screenshot_breakdown
  let error_type_raw ← pyGet error_analysis "error_type" (.str "Unknown")
  let error_type ← pyTitleJ error_type_raw
  let severity_titled ← pyTitleJ severity
  let location ← pyGet error_analysis "location" (.str "Not specified")
  let language ← pyGet error_analysis "language" (.str "Not detected")
  let screenshots_analysed ← pyGet data "screenshots_analysed" (.num ⟨1, 0⟩)
  let ide ← pyGet environment "ide" (.str "Not detected")
  let framework ← pyGet environment "framework" (.str "Not detected")
  let extracted_text ← pyGet data "extracted_text" (.str "No text extracted")
  let solution ← pyGet data "solution" (.str "No solution provided")
  let confidence_raw ← pyGet data "confidence" (.num ⟨0, 0⟩)
  let confidence ← pyFloatJ confidence_raw
  return "## " ++ severity_emoji ++ " Error Analysis\n\n**Type:** " ++ error_type ++
    " Error  \n**Severity:** " ++ severity_titled ++ "  \n**Location:** " ++
    pyStrJ location ++ "  \n**Language:** " ++ pyStrJ language ++
    "  \n**Screenshots Analysed:** " ++ pyStrJ screenshots_analysed ++
    "\n\n## 🖥️ Environment\n\n**IDE:** " ++ pyStrJ ide ++ "  \n**Framework:** " ++
    pyStrJ framework ++ "\n\n" ++ screenshot_section ++
    "\n\n## 📝 Extracted Text\n\n" ++ pyStrJ extracted_text ++
    "\n\n## 💡 Solution\n\n" ++ pyStrJ solution ++ "\n\n**Confidence:** " ++
    pctRepr confidence ++ "%"

/-- `format_json_for_display`: the `except` clause turns any raised error
into a formatted error string (exception text abstracted). -/
def format_json_for_display (data : Json) : String :=
  match format_core data with
  | .ok s => s
  | .error e => "Error formatting the display: " ++ e

/-! ### Image Encoder: `encode_image` (src/app.py lines 13-15)

The filesystem read is modelled by the byte content carried with the file
handle; `encode_image` base64-encodes those bytes. -/

/-- An uploaded file handle: `.name` is the path, `bytes` the content the
filesystem returns for it. -/
structure PyFile where
  name : String
  bytes : List Nat

/-- The base64 alphabet. -/
def b64Alphabet : List Char :=
  "ABCDEFGHIJKLMNOPQRSTUVWXYZabcdefghijklmnopqrstuvwxyz0123456789+/".data

/-- Character for a six-bit group. -/
def b64Char (n : Nat) : Char :=
  b64Alphabet.getD n 'A'

/-- Standard base64 of a byte sequence (`base64.b64encode`), with `=`
padding. -/
def b64Encode : List Nat → List Char
  | [] => []
  | [b1] => [b64Char (b1 / 4), b64Char (b1 % 4 * 16), '=', '=']
  | [b1, b2] => [b64Char (b1 / 4), b64Char (b1 % 4 * 16 + b2 / 16), b64Char (b2 % 16 * 4), '=']
  | b1 :: b2 :: b3 :: rest =>
      b64Char (b1 / 4) :: b64Char (b1 % 4 * 16 + b2 / 16) ::
      b64Char (b2 % 16 * 4 + b3 / 64) :: b64Char (b3 % 64) :: b64Encode rest

/-- `encode_image`: read the file's bytes, base64-encode, decode to text. -/
def encode_image (f : PyFile) : String :=
  ⟨b64Encode f.bytes⟩

/-! ### Analysis Client: `analyse_screenshots` (src/app.py lines 19-103) -/

/-- One element of the `content` list of the user message. -/
inductive ContentPart where
  | text (t : String)
  | image_url (url : String)

/-- The multimodal request the function would send: the system message text
itself is an opaque prompt no claim references, so only the user content is
carried. -/
structure AnalysisRequest where
  user_content : List ContentPart

/-- The `image_content` list: one `image_url` part per non-`None` uploaded
file, in order (`for i, file in enumerate(uploaded_files): if file is not
None: ...`). -/
def buildImageContent : List (Option PyFile) → List ContentPart
  | [] => []
  | none :: rest => buildImageContent rest
  | some f :: rest =>
      ContentPart.image_url ("data:image/jpeg;base64," ++ encode_image f) ::
        buildImageContent rest

/-- The `screenshot_info` list built alongside (dead code in the source:
never read afterwards); the enumerate index counts `None` entries too. -/
def buildScreenshotInfo (i : Nat) : List (Option PyFile) → List String
  | [] => []
  | none :: rest => buildScreenshotInfo (i + 1) rest
  | some f :: rest =>
      ("Screenshot " ++ (i + 1).repr ++ ": " ++ f.name) :: buildScreenshotInfo (i + 1) rest

/-- `not uploaded_files or len(uploaded_files) == 0`: the attachment list
is absent or empty. -/
def filesMissing : Option (List (Option PyFile)) → Bool
  | none => true
  | some fs => fs.isEmpty

/-- The credential check of `analyse_screenshots` (line 25): rejected when
`not api_key or not api_key.startswith('sk-')`. -/
def analyse_api_key_ok (api_key : String) : Bool :=
  !((api_key == "") || !(pyStartsWith api_key "sk-"))

/-- The credential check of `followup_conversation` (line 168), written in
the source as the same condition. -/
def followup_api_key_ok (api_key : String) : Bool :=
  !((api_key == "") || !(pyStartsWith api_key "sk-"))

/-- What `analyse_screenshots` does before any network traffic: either an
early return with a message (and `None` result), or the model call with the
constructed request. -/
inductive AnalyseStep where
  | earlyReturn (msg : String)
  | callModel (request : AnalysisRequest)

/-- The precondition checks and request construction of
`analyse_screenshots` (lines 22-74), up to the `try` block. -/
def analyse_request (user_prompt : String) (uploaded_files : Option (List (Option PyFile)))
    (api_key : String) : AnalyseStep :=
  if filesMissing uploaded_files then
    .earlyReturn "Please upload at least one screenshot to analyse."
  else if !analyse_api_key_ok api_key then
    .earlyReturn "**Invalid API Key**: Please enter a valid OpenAI API key starting with \x27sk-\x27"
  else
    .callModel ⟨ContentPart.text user_prompt :: buildImageContent (uploaded_files.getD [])⟩

/-- Outcome of the external model call inside the `try` block: either the
returned completion text together with the result of `json.loads` on it
(`none` = `JSONDecodeError`), or a raised exception's description
(`str(e)`). -/
inductive ModelOutcome where
  | success (response_text : String) (parsed : Option Json)
  | failure (error_description : String)

/-- The `except Exception` classifier of `analyse_screenshots`
(lines 97-103). -/
def classify_analyse_error (e : String) : String :=
  if strContainsB e "API key" then
    "**Connection Error**: Please check your OpenAI API key is valid and has sufficient credits."
  else if strContainsB (pyLower e) "rate limit" then
    "**Rate Limit Error**: Too many requests. Please wait a moment and try again."
  else
    "Analysis failed: " ++ e ++ ". Please try again with another screenshot"

/-- `analyse_screenshots` end to end, with the model call's outcome passed
explicitly: returns the displayed text and the stored result. -/
def analyse_screenshots (user_prompt : String) (uploaded_files : Option (List (Option PyFile)))
    (api_key : String) (outcome : ModelOutcome) : String × Option Json :=
  match analyse_request user_prompt uploaded_files api_key with
  | .earlyReturn msg => (msg, none)
  | .callModel _ =>
    match outcome with
    | .failure e => (classify_analyse_error e, none)
    | .success response_text parsed =>
      match parsed with
      | some parsed_data => (format_json_for_display parsed_data, some parsed_data)
      | none => ("Error parsing response. Raw output:\n" ++ response_text, none)

/-- The JSON shape the system instruction demands of the model
(src/app.py lines 42-62): used to state which parsed values are
schema-violating.  A value conforms when it is an object carrying exactly
the advertised required fields with the advertised types. -/
def expected_schema_ok (j : Json) : Bool :=
  match j with
  | .obj fields =>
      (match lookupField "screenshots_analysed" fields with
       | some (.num _) => true | _ => false) &&
      (match lookupField "extracted_text" fields with
       | some (.str _) => true | _ => false) &&
      (match lookupField "error_analysis" fields with
       | some (.obj ea) =>
          (match lookupField "error_type" ea with | some (.str _) => true | _ => false) &&
          (match lookupField "severity" ea with | some (.str _) => true | _ => false) &&
          (match lookupField "location" ea with | some (.str _) => true | _ => false) &&
          (match lookupField "language" ea with | some (.str _) => true | _ => false)
       | _ => false) &&
      (match lookupField "environment" fields with
       | some (.obj env) =>
          (match lookupField "ide" env with | some (.str _) => true | _ => false) &&
          (match lookupField "framework" env with | some (.str _) => true | _ => false)
       | _ => false) &&
      (match lookupField "screenshot_breakdown" fields with
       | some (.obj bd) => bd.all (fun kv => match kv.2 with | .str _ => true | _ => false)
       | _ => false) &&
      (match lookupField "solution" fields with
       | some (.str _) => true | _ => false) &&
      (match lookupField "confidence" fields with
       | some (.num _) => true | _ => false)
  | _ => false

/-- Number of text parts in a content list. -/
def countTextParts : List ContentPart → Nat
  | [] => 0
  | .text _ :: rest => countTextParts rest + 1
  | .image_url _ :: rest => countTextParts rest

/-- Number of image parts in a content list. -/
def countImageParts : List ContentPart → Nat
  | [] => 0
  | .text _ :: rest => countImageParts rest
  | .image_url _ :: rest => countImageParts rest + 1

/-! ### Well-typed analysis results

`AnalysisResultR` is the schema-conforming shape of a parsed result, used
to quantify over "AnalysisResults with all fields populated" in the
renderer claims; `toJson` injects it into the dynamic value the renderer
actually receives. -/

/-- A schema-conforming analysis result. -/
structure AnalysisResultR where
  screenshots_analysed : JNum
  extracted_text : String
  error_type : String
  severity : String
  location : String
  language : String
  ide : String
  framework : String
  breakdown : List (String × String)
  solution : String
  confidence : JNum

/-- Breakdown entries as the dict `json.loads` would produce. -/
def breakdownJson (bd : List (String × String)) : List (String × Json) :=
  bd.map (fun kd => (kd.1, Json.str kd.2))

/-- The dynamic value of a schema-conforming result. -/
def AnalysisResultR.toJson (r : AnalysisResultR) : Json :=
  .obj [("screenshots_analysed", .num r.screenshots_analysed),
        ("extracted_text", .str r.extracted_text),
        ("error_analysis", .obj [("error_type", .str r.error_type),
                                 ("severity", .str r.severity),
                                 ("location", .str r.location),
                                 ("language", .str r.language)]),
        ("environment", .obj [("ide", .str r.ide), ("framework", .str r.framework)]),
        ("screenshot_breakdown", .obj (breakdownJson r.breakdown)),
        ("solution", .str r.solution),
        ("confidence", .num r.confidence)]

/-- The rendering of a schema-conforming result, written out. -/
def renderR (r : AnalysisResultR) : String :=
  "## " ++ severityEmojiGet (.str r.severity) ++ " Error Analysis\n\n**Type:** " ++
    pyTitle r.error_type ++
    " Error  \n**Severity:** " ++ pyTitle r.severity ++ "  \n**Location:** " ++
    r.location ++ "  \n**Language:** " ++ r.language ++
    "  \n**Screenshots Analysed:** " ++ jsonNumRepr r.screenshots_analysed ++
    "\n\n## 🖥️ Environment\n\n**IDE:** " ++ r.ide ++ "  \n**Framework:** " ++
    r.framework ++ "\n\n" ++ screenshotSectionStr (breakdownJson r.breakdown) ++
    "\n\n## 📝 Extracted Text\n\n" ++ r.extracted_text ++
    "\n\n## 💡 Solution\n\n" ++ r.solution ++ "\n\n**Confidence:** " ++
    pctRepr r.confidence ++ "%"

/-! ### Conversation Engine: `followup_conversation` (src/app.py lines 163-229) -/

/-- The placeholder shown before any exchange (src/app.py lines 212, 299). -/
def conversationSentinel : String :=
  "Your conversation will appear here after you start asking questions..."

/-- Outcome of the follow-up model call: the assistant's completion text,
or a raised exception's description. -/
inductive FollowupOutcome where
  | success (assistant_response : String)
  | failure (error_description : String)

/-- The `except Exception` classifier of `followup_conversation`
(lines 221-227). -/
def classify_followup_error (e : String) : String :=
  if strContainsB e "API key" then
    "**Assistant:** I\x27m having trouble connecting to the AI service. Please check your API key."
  else if strContainsB (pyLower e) "rate limit" then
    "**Assistant:** I\x27m receiving too many requests. Please wait a moment and try again."
  else
    "**Assistant:** Sorry, I encountered an error: " ++ e ++ ". Please try again."

/-- The new exchange block (line 210). -/
def newExchange (user_question assistant_response : String) : String :=
  "**You:** " ++ user_question ++ "\n\n**Assistant:** " ++ assistant_response

/-- The transcript join rule (lines 212-217): replace the sentinel, append
after a non-blank transcript, replace a blank one. -/
def updatedConversation (conversation_history new_exchange : String) : String :=
  if conversation_history == conversationSentinel then new_exchange
  else if !(pyStrip conversation_history == "") then
    conversation_history ++ "\n\n" ++ new_exchange
  else new_exchange

set_option linter.unusedVariables false in
/-- `followup_conversation` end to end, with the model call's outcome
passed explicitly: returns the (possibly updated) transcript and the status
message.  The context/system-message construction (lines 171-197) reads
`analysis_data` only to feed the model call and is not observable in the
returned pair, so it is not carried here. -/
def followup_conversation (user_question conversation_history : String)
    (analysis_data : Option Json) (api_key : String) (outcome : FollowupOutcome) :
    String × String :=
  if pyStrip user_question == "" then
    (conversation_history, "Please ask a question.")
  else if !followup_api_key_ok api_key then
    (conversation_history, "Please enter a valid OpenAI API key above.")
  else
    match outcome with
    | .failure e => (conversation_history, classify_followup_error e)
    | .success assistant_response =>
        (updatedConversation conversation_history (newExchange user_question assistant_response),
         "")

/-! ### Concrete inputs used to instantiate the theorems -/

/-- The worked model reply of the spec's scenario (section 8), as a
schema-conforming record. -/
def scenarioR : AnalysisResultR where
  screenshots_analysed := ⟨1, 0⟩
  extracted_text := "NullPointerException"
  error_type := "runtime"
  severity := "critical"
  location := "Main.java:42"
  language := "Java"
  ide := "IntelliJ"
  framework := "none"
  breakdown := [("screenshot_1", "shows stack trace")]
  solution := "1. Check null\n2. Add guard"
  confidence := ⟨82, 2⟩

/-- A parsed result whose breakdown dict iterates its keys in the order
3, 1, 2. -/
def reorderedData : Json :=
  .obj [("screenshot_breakdown",
         .obj [("screenshot_3", .str "C"), ("screenshot_1", .str "A"),
               ("screenshot_2", .str "B")])]

/-- A parsed result whose breakdown dict is non-empty but carries only an
empty description. -/
def emptyDescData : Json :=
  .obj [("screenshot_breakdown", .obj [("screenshot_1", .str "")])]

/-- A concrete uploaded screenshot. -/
def file1 : PyFile :=
  ⟨"shot1.png", [1, 2, 3]⟩

/-! ## Helper lemmas -/

/-- `String.append` concatenates the character lists. -/
theorem dataAppend (a b : String) : (a ++ b).data = a.data ++ b.data :=
  rfl

/-- A string occurs in itself. -/
theorem containsP_self (p : String) : ContainsP p p :=
  ⟨[], [], by simp⟩

/-- Occurrence is preserved by appending on the right. -/
theorem containsP_append_left {p a : String} {b : String} (h : ContainsP p a) :
    ContainsP p (a ++ b) := by
  obtain ⟨u, v, hv⟩ := h
  exact ⟨u, v ++ b.data, by simp [dataAppend, hv]⟩

/-- Occurrence is preserved by appending on the left. -/
theorem containsP_append_right (a : String) {p b : String} (h : ContainsP p b) :
    ContainsP p (a ++ b) := by
  obtain ⟨u, v, hv⟩ := h
  exact ⟨a.data ++ u, v, by simp [dataAppend, hv]⟩

/-- A tail pair of operands occurs contiguously in a left-nested chain. -/
theorem containsP_append_pair (a b c : String) : ContainsP (b ++ c) (a ++ b ++ c) :=
  ⟨a.data, [], by simp [dataAppend]⟩

/-- `listPrefixOfB` decides list-prefix decomposition. -/
theorem listPrefixOfB_iff (pat : List Char) : ∀ l : List Char,
    listPrefixOfB pat l = true ↔ ∃ v, l = pat ++ v := by
  induction pat with
  | nil =>
      intro l
      simp [listPrefixOfB]
  | cons a as ih =>
      intro l
      cases l with
      | nil =>
          simp [listPrefixOfB]
      | cons b bs =>
          simp only [listPrefixOfB, Bool.and_eq_true, beq_iff_eq, ih, List.cons_append,
            List.cons.injEq]
          constructor
          · rintro ⟨rfl, v, rfl⟩
            exact ⟨v, rfl, rfl⟩
          · rintro ⟨v, rfl, rfl⟩
            exact ⟨rfl, v, rfl⟩

/-- `listContainsB` decides contiguous-occurrence decomposition. -/
theorem listContainsB_iff (pat : List Char) : ∀ l : List Char,
    listContainsB pat l = true ↔ ∃ u v, l = u ++ pat ++ v := by
  intro l
  induction l with
  | nil =>
      simp only [listContainsB, listPrefixOfB_iff]
      constructor
      · rintro ⟨v, hv⟩
        exact ⟨[], v, by simpa using hv⟩
      · rintro ⟨u, v, huv⟩
        obtain ⟨rfl, rfl, rfl⟩ : u = [] ∧ pat = [] ∧ v = [] := by simpa using huv.symm
        exact ⟨[], rfl⟩
  | cons c cs ih =>
      simp only [listContainsB, Bool.or_eq_true, listPrefixOfB_iff, ih]
      constructor
      · rintro (⟨v, hv⟩ | ⟨u, v, huv⟩)
        · exact ⟨[], v, by simpa using hv⟩
        · exact ⟨c :: u, v, by simp [huv]⟩
      · rintro ⟨u, v, huv⟩
        cases u with
        | nil =>
            exact Or.inl ⟨v, by simpa using huv⟩
        | cons d du =>
            rw [List.cons_append, List.cons_append] at huv
            injection huv with h1 h2
            exact Or.inr ⟨du, v, h2⟩

/-- The Boolean substring test agrees with the containment proposition. -/
theorem strContainsB_iff (s p : String) : strContainsB s p = true ↔ ContainsP p s :=
  listContainsB_iff p.data s.data

/-- Appending the empty string on the left is the identity. -/
theorem empty_append_str (s : String) : "" ++ s = s :=
  rfl

/-- On schema-conforming input the renderer never takes the error branch
and produces exactly `renderR`. -/
theorem format_json_for_display_toJson (r : AnalysisResultR) :
    format_json_for_display r.toJson = renderR r :=
  rfl

/-- A description occurs in its own breakdown line. -/
theorem containsP_screenshotLine (k d : String) :
    ContainsP d (screenshotLine k (.str d)) := by
  unfold screenshotLine
  apply containsP_append_left
  exact containsP_append_right _ (containsP_self d)

/-- A non-empty description of some entry occurs in the rendered entry
lines. -/
theorem containsP_screenshotEntries {bd : List (String × String)} {k d : String}
    (hm : (k, d) ∈ bd) (hd : (d == "") = false) :
    ContainsP d (screenshotEntries (breakdownJson bd)) := by
  induction bd with
  | nil => cases hm
  | cons p tl ih =>
      obtain ⟨k', d'⟩ := p
      rw [List.mem_cons] at hm
      show ContainsP d
        ((if jsonTruthy (.str d') then screenshotLine k' (.str d') else "") ++
          screenshotEntries (breakdownJson tl))
      rcases hm with heq | hmem
      · obtain ⟨rfl, rfl⟩ := Prod.mk.injEq .. ▸ heq
        have ht : jsonTruthy (Json.str d) = true := by
          simp [jsonTruthy, hd]
        rw [ht]
        simp only [if_true]
        exact containsP_append_left (containsP_screenshotLine k d)
      · exact containsP_append_right _ (ih hmem)

/-- A non-empty description of some entry occurs in the rendered breakdown
section. -/
theorem containsP_screenshotSection {bd : List (String × String)} {k d : String}
    (hm : (k, d) ∈ bd) (hd : (d == "") = false) :
    ContainsP d (screenshotSectionStr (breakdownJson bd)) := by
  cases bd with
  | nil => cases hm
  | cons p tl =>
      show ContainsP d
        ("\n## Screenshot Analysis\n\n" ++ screenshotEntries (breakdownJson (p :: tl)))
      exact containsP_append_right _ (containsP_screenshotEntries hm hd)

/-- The built image content carries no text part. -/
theorem countTextParts_buildImageContent (fs : List (Option PyFile)) :
    countTextParts (buildImageContent fs) = 0 := by
  induction fs with
  | nil => rfl
  | cons o rest ih =>
      cases o <;> simp [buildImageContent, countTextParts, ih]

/-- The built image content has one image part per non-`None` attachment. -/
theorem countImageParts_buildImageContent (fs : List (Option PyFile)) :
    countImageParts (buildImageContent fs) = (fs.filter (fun f => f.isSome)).length := by
  induction fs with
  | nil => rfl
  | cons o rest ih =>
      cases o <;> simp [buildImageContent, countImageParts, ih, List.filter]

/-- With every description falsy, the entry loop emits nothing. -/
theorem screenshotEntries_all_falsy {es : List (String × Json)}
    (h : ∀ kv ∈ es, jsonTruthy kv.2 = false) :
    screenshotEntries es = "" := by
  induction es with
  | nil => rfl
  | cons p tl ih =>
      obtain ⟨k, d⟩ := p
      have hd : jsonTruthy d = false := h (k, d) (List.mem_cons_self _ _)
      show (if jsonTruthy d then screenshotLine k d else "") ++ screenshotEntries tl = ""
      rw [hd]
      simp only [Bool.false_eq_true, if_false]
      rw [empty_append_str]
      exact ih (fun kv hkv => h kv (List.mem_cons_of_mem _ hkv))

/-- The section string is empty exactly for an empty breakdown dict. -/
theorem screenshotSectionStr_eq_empty_iff (es : List (String × Json)) :
    screenshotSectionStr es = "" ↔ es = [] := by
  cases es with
  | nil => simp [screenshotSectionStr]
  | cons p tl =>
      constructor
      · intro h
        have hdata := congrArg String.data h
        rw [show screenshotSectionStr (p :: tl) =
              "\n## Screenshot Analysis\n\n" ++ screenshotEntries (p :: tl) from rfl] at hdata
        simp [dataAppend] at hdata
      · intro h
        cases h

/-! ## Claim theorems -/

/-- C4: the preconditions of `analyse_screenshots` are checked in order and
short-circuit before any model invocation: an empty or absent attachment
list yields the "no screenshots" message with an absent result and no
model call (the pre-network stage is an early return, never `callModel`);
otherwise a credential failing the gate yields the invalid-key message
with an absent result and no model call. -/
theorem analyse_preconditions_short_circuit
    (user_prompt : String) (uploaded_files : Option (List (Option PyFile)))
    (api_key : String) (outcome : ModelOutcome) :
    (filesMissing uploaded_files = true →
      analyse_request user_prompt uploaded_files api_key =
        .earlyReturn "Please upload at least one screenshot to analyse." ∧
      analyse_screenshots user_prompt uploaded_files api_key outcome =
        ("Please upload at least one screenshot to analyse.", none)) ∧
    (filesMissing uploaded_files = false → analyse_api_key_ok api_key = false →
      analyse_request user_prompt uploaded_files api_key =
        .earlyReturn
          "**Invalid API Key**: Please enter a valid OpenAI API key starting with \x27sk-\x27" ∧
      analyse_screenshots user_prompt uploaded_files api_key outcome =
        ("**Invalid API Key**: Please enter a valid OpenAI API key starting with \x27sk-\x27",
         none)) := by
  constructor
  · intro h
    have hreq : analyse_request user_prompt uploaded_files api_key =
        .earlyReturn "Please upload at least one screenshot to analyse." := by
      unfold analyse_request
      rw [h]
      simp
    exact ⟨hreq, by unfold analyse_screenshots; rw [hreq]⟩
  · intro h hk
    have hreq : analyse_request user_prompt uploaded_files api_key =
        .earlyReturn
          "**Invalid API Key**: Please enter a valid OpenAI API key starting with \x27sk-\x27" := by
      unfold analyse_request
      rw [h, hk]
      simp
    exact ⟨hreq, by unfold analyse_screenshots; rw [hreq]⟩

/-- Witness for C4 at concrete inputs: an empty list and a bad key. -/
theorem analyse_preconditions_short_circuit_witness :
    filesMissing (some []) = true ∧
    analyse_screenshots "crash on startup" (some []) "sk-ok" (.failure "boom") =
      ("Please upload at least one screenshot to analyse.", none) ∧
    filesMissing (some [some file1]) = false ∧
    analyse_api_key_ok "bad-key" = false ∧
    analyse_screenshots "" (some [some file1]) "bad-key" (.failure "boom") =
      ("**Invalid API Key**: Please enter a valid OpenAI API key starting with \x27sk-\x27",
       none) :=
  ⟨by decide,
   ((analyse_preconditions_short_circuit "crash on startup" (some []) "sk-ok"
      (.failure "boom")).1 (by decide)).2,
   by decide, by decide,
   ((analyse_preconditions_short_circuit "" (some [some file1]) "bad-key"
      (.failure "boom")).2 (by decide) (by decide)).2⟩

/-- C9: the credential gate accepts a string exactly when it is non-empty
and starts with "sk-", and the analysis path and the follow-up path use
the same predicate. -/
theorem credential_gate_prefix_predicate (k : String) :
    analyse_api_key_ok k = followup_api_key_ok k ∧
    (analyse_api_key_ok k = true ↔ k ≠ "" ∧ pyStartsWith k "sk-" = true) := by
  refine ⟨rfl, ?_⟩
  unfold analyse_api_key_ok
  cases hek : k == "" with
  | true =>
      have : k = "" := by simpa using hek
      subst this
      simp [pyStartsWith, listPrefixOfB]
  | false =>
      have hne : k ≠ "" := by simpa using hek
      cases hsw : pyStartsWith k "sk-" <;> simp [hek, hsw, hne]

/-- C10: in both classifiers the case-sensitive "API key" test runs before
the case-insensitive "rate limit" test, so a description containing both
yields the credential message, while a description containing only the
lowercase "api key" falls through to the generic message. -/
theorem error_classifier_case_and_order (e : String) :
    (strContainsB e "API key" = true → strContainsB (pyLower e) "rate limit" = true →
      classify_analyse_error e =
        "**Connection Error**: Please check your OpenAI API key is valid and has sufficient credits." ∧
      classify_followup_error e =
        "**Assistant:** I\x27m having trouble connecting to the AI service. Please check your API key.") ∧
    (strContainsB e "API key" = false → strContainsB (pyLower e) "api key" = true →
      strContainsB (pyLower e) "rate limit" = false →
      classify_analyse_error e =
        "Analysis failed: " ++ e ++ ". Please try again with another screenshot" ∧
      classify_followup_error e =
        "**Assistant:** Sorry, I encountered an error: " ++ e ++ ". Please try again.") := by
  constructor
  · intro h _
    constructor
    · unfold classify_analyse_error
      rw [h]
      simp
    · unfold classify_followup_error
      rw [h]
      simp
  · intro h1 _ h3
    constructor
    · unfold classify_analyse_error
      rw [h1, h3]
      simp
    · unfold classify_followup_error
      rw [h1, h3]
      simp

/-- Witness for C10 at concrete descriptions: one containing both
substrings, one containing only the lowercase form. -/
theorem error_classifier_case_and_order_witness :
    classify_analyse_error "API key, and a rate limit too" =
      "**Connection Error**: Please check your OpenAI API key is valid and has sufficient credits." ∧
    classify_analyse_error "api key" =
      "Analysis failed: api key. Please try again with another screenshot" ∧
    classify_followup_error "api key" =
      "**Assistant:** Sorry, I encountered an error: api key. Please try again." :=
  ⟨((error_classifier_case_and_order "API key, and a rate limit too").1
      (by decide) (by decide)).1,
   ((error_classifier_case_and_order "api key").2 (by decide) (by decide) (by decide)).1,
   ((error_classifier_case_and_order "api key").2 (by decide) (by decide) (by decide)).2⟩

/-- C5: a model failure during a follow-up leaves the transcript
byte-identical and returns a role-prefixed status message that is exactly
one of the credential, rate-limit, or generic explanations. -/
theorem followup_failure_isolation (q T k e : String) (data : Option Json)
    (hq : (pyStrip q == "") = false) (hk : followup_api_key_ok k = true) :
    (followup_conversation q T data k (.failure e)).1 = T ∧
    pyStartsWith (followup_conversation q T data k (.failure e)).2 "**Assistant:**" = true ∧
    (followup_conversation q T data k (.failure e)).2 = classify_followup_error e ∧
    (classify_followup_error e =
        "**Assistant:** I\x27m having trouble connecting to the AI service. Please check your API key." ∨
      classify_followup_error e =
        "**Assistant:** I\x27m receiving too many requests. Please wait a moment and try again." ∨
      classify_followup_error e =
        "**Assistant:** Sorry, I encountered an error: " ++ e ++ ". Please try again.") := by
  have hred : followup_conversation q T data k (.failure e) = (T, classify_followup_error e) := by
    unfold followup_conversation
    rw [hq, hk]
    simp
  rw [hred]
  refine ⟨rfl, ?_, rfl, ?_⟩
  · unfold classify_followup_error
    cases h1 : strContainsB e "API key" with
    | true => rfl
    | false =>
        cases h2 : strContainsB (pyLower e) "rate limit" with
        | true => rfl
        | false => rfl
  · unfold classify_followup_error
    cases h1 : strContainsB e "API key" with
    | true => simp
    | false =>
        cases h2 : strContainsB (pyLower e) "rate limit" with
        | true => simp
        | false => simp

/-- Witness for C5 at a concrete failed follow-up call. -/
theorem followup_failure_isolation_witness :
    (pyStrip "Why?" == "") = false ∧
    followup_api_key_ok "sk-1" = true ∧
    (followup_conversation "Why?" "prior transcript" none "sk-1" (.failure "boom")).1 =
      "prior transcript" :=
  ⟨by decide, by decide,
   (followup_failure_isolation "Why?" "prior transcript" "sk-1" "boom" none
      (by decide) (by decide)).1⟩

/-- Counterexample to C7 as stated: the sentinel placeholder and a
whitespace-only transcript are both non-empty, yet a successful follow-up
replaces them instead of appending after a blank-line separator. -/
theorem followup_append_rule_counterexample :
    followup_conversation "q" conversationSentinel none "sk-a" (.success "a") =
      ("**You:** q\n\n**Assistant:** a", "") ∧
    conversationSentinel ≠ "" ∧
    "**You:** q\n\n**Assistant:** a" ≠
      conversationSentinel ++ "\n\n" ++ "**You:** q\n\n**Assistant:** a" ∧
    followup_conversation "q" " " none "sk-a" (.success "a") =
      ("**You:** q\n\n**Assistant:** a", "") ∧
    " " ≠ "" ∧
    "**You:** q\n\n**Assistant:** a" ≠ " " ++ "\n\n" ++ "**You:** q\n\n**Assistant:** a" := by
  refine ⟨by decide, by decide, by decide, by decide, by decide, by decide⟩

/-- C7 (amended): for every prior transcript that is neither the sentinel
placeholder nor blank after stripping, a successful follow-up producing the
exchange block E returns exactly `T ++ "\n\n" ++ E`. -/
theorem followup_append_rule (q T a k : String) (data : Option Json)
    (hq : (pyStrip q == "") = false) (hk : followup_api_key_ok k = true)
    (hT1 : (T == conversationSentinel) = false) (hT2 : (pyStrip T == "") = false) :
    followup_conversation q T data k (.success a) =
      (T ++ "\n\n" ++ newExchange q a, "") := by
  unfold followup_conversation updatedConversation
  rw [hq, hk, hT1, hT2]
  simp

/-- Witness for C7 (amended) at a concrete transcript. -/
theorem followup_append_rule_witness :
    (pyStrip "next?" == "") = false ∧
    followup_api_key_ok "sk-2" = true ∧
    ("earlier text" == conversationSentinel) = false ∧
    (pyStrip "earlier text" == "") = false ∧
    followup_conversation "next?" "earlier text" none "sk-2" (.success "sure") =
      ("earlier text" ++ "\n\n" ++ newExchange "next?" "sure", "") :=
  ⟨by decide, by decide, by decide, by decide,
   followup_append_rule "next?" "earlier text" "sure" "sk-2" none
     (by decide) (by decide) (by decide) (by decide)⟩

/-- Counterexample to C6 as stated: a one-element attachment list holding
`None` passes both precondition checks and reaches the model invocation
with no image part at all. -/
theorem analyse_request_parts_counterexample :
    analyse_request "" (some [none]) "sk-a" = .callModel ⟨[ContentPart.text ""]⟩ ∧
    countTextParts [ContentPart.text ""] = 1 ∧
    countImageParts [ContentPart.text ""] = 0 :=
  ⟨rfl, rfl, rfl⟩

/-- C6 (amended): whenever `analyse_screenshots` reaches the model
invocation, the request holds exactly one text part and one image part per
non-`None` attachment; in particular at least one image part whenever some
attachment is non-`None`. -/
theorem analyse_request_parts (p k : String) (files : List (Option PyFile))
    (req : AnalysisRequest)
    (h : analyse_request p (some files) k = .callModel req) :
    countTextParts req.user_content = 1 ∧
    countImageParts req.user_content = (files.filter (fun f => f.isSome)).length ∧
    ((∃ f ∈ files, f.isSome = true) → 1 ≤ countImageParts req.user_content) := by
  unfold analyse_request at h
  cases hfm : filesMissing (some files) with
  | true =>
      rw [hfm] at h
      simp at h
  | false =>
      rw [hfm] at h
      cases hak : analyse_api_key_ok k with
      | false =>
          rw [hak] at h
          simp at h
      | true =>
          rw [hak] at h
          simp only [Bool.not_true, Bool.false_eq_true, if_false] at h
          injection h with h'
          subst h'
          refine ⟨?_, ?_, ?_⟩
          · show countTextParts (buildImageContent files) + 1 = 1
            rw [countTextParts_buildImageContent]
          · show countImageParts (buildImageContent files) =
              (files.filter (fun f => f.isSome)).length
            exact countImageParts_buildImageContent files
          · rintro ⟨f, hf, hs⟩
            show 1 ≤ countImageParts (buildImageContent files)
            rw [countImageParts_buildImageContent]
            have hmem : f ∈ files.filter (fun f => f.isSome) :=
              List.mem_filter.mpr ⟨hf, hs⟩
            exact List.length_pos.mpr (List.ne_nil_of_mem hmem)

/-- Witness for C6 (amended) at a concrete single-attachment call. -/
theorem analyse_request_parts_witness :
    countTextParts [ContentPart.text "hi",
      ContentPart.image_url "data:image/jpeg;base64,AQID"] = 1 ∧
    countImageParts [ContentPart.text "hi",
      ContentPart.image_url "data:image/jpeg;base64,AQID"] =
      ([some file1].filter (fun f => f.isSome)).length ∧
    ((∃ f ∈ [some file1], f.isSome = true) →
      1 ≤ countImageParts [ContentPart.text "hi",
            ContentPart.image_url "data:image/jpeg;base64,AQID"]) :=
  analyse_request_parts "hi" "sk-x" [some file1]
    ⟨[ContentPart.text "hi", ContentPart.image_url "data:image/jpeg;base64,AQID"]⟩ rfl

/-- Counterexample to C3 as stated: a reply that is valid JSON but violates
the expected schema is not treated as absent — the parsed value itself is
rendered (its fields are read with defaults) and returned as the stored
result. -/
theorem analyse_parse_handling_counterexample :
    analyse_screenshots "p" (some [some file1]) "sk-k"
        (.success "\x7b\x7d" (some (.obj []))) =
      (format_json_for_display (.obj []), some (.obj [])) ∧
    expected_schema_ok (.obj []) = false ∧
    (analyse_screenshots "p" (some [some file1]) "sk-k"
        (.success "\x7b\x7d" (some (.obj [])))).2 ≠ none :=
  ⟨rfl, by decide, fun h => Option.noConfusion h⟩

/-- C3 (amended): past the preconditions, a reply whose text fails JSON
parsing surfaces the raw text verbatim with an absent result, while any
reply that parses as JSON — schema-conforming or not — is rendered and
stored as the result. -/
theorem analyse_parse_handling (p : String) (ufs : Option (List (Option PyFile)))
    (k text : String)
    (hfm : filesMissing ufs = false) (hk : analyse_api_key_ok k = true) :
    analyse_screenshots p ufs k (.success text none) =
      ("Error parsing response. Raw output:\n" ++ text, none) ∧
    ∀ v : Json, analyse_screenshots p ufs k (.success text (some v)) =
      (format_json_for_display v, some v) := by
  have hreq : analyse_request p ufs k =
      .callModel ⟨ContentPart.text p :: buildImageContent (ufs.getD [])⟩ := by
    unfold analyse_request
    rw [hfm, hk]
    simp
  constructor
  · unfold analyse_screenshots
    rw [hreq]
  · intro v
    unfold analyse_screenshots
    rw [hreq]

/-- Witness for C3 (amended) at a concrete non-JSON reply. -/
theorem analyse_parse_handling_witness :
    filesMissing (some [some file1]) = false ∧
    analyse_api_key_ok "sk-k" = true ∧
    analyse_screenshots "p" (some [some file1]) "sk-k"
        (.success "I cannot analyse this." none) =
      ("Error parsing response. Raw output:\nI cannot analyse this.", none) :=
  ⟨by decide, by decide,
   (analyse_parse_handling "p" (some [some file1]) "sk-k" "I cannot analyse this."
      (by decide) (by decide)).1⟩

/-- Counterexample to C8 as stated: a breakdown dict whose only description
is empty still makes the section header appear in the rendered output. -/
theorem breakdown_section_emission_counterexample :
    strContainsB (format_json_for_display emptyDescData) "## Screenshot Analysis" = true ∧
    (∀ kv ∈ [("screenshot_1", Json.str "")], jsonTruthy kv.2 = false) :=
  ⟨by decide, by decide⟩

/-- C8 (amended): the per-screenshot section is emitted exactly when the
breakdown dict is non-empty (truthy); when every description is falsy the
section is the bare header, with entry lines only for truthy
descriptions. -/
theorem breakdown_section_emission (entries : List (String × Json)) :
    (screenshotSectionStr entries = "" ↔ entries = []) ∧
    ((∀ kv ∈ entries, jsonTruthy kv.2 = false) → entries ≠ [] →
      screenshotSectionStr entries = "\n## Screenshot Analysis\n\n") := by
  refine ⟨screenshotSectionStr_eq_empty_iff entries, fun hall hne => ?_⟩
  cases entries with
  | nil => exact absurd rfl hne
  | cons p tl =>
      show "\n## Screenshot Analysis\n\n" ++ screenshotEntries (p :: tl) = _
      rw [screenshotEntries_all_falsy hall]
      rfl

/-- Witness for C8 (amended) at a concrete one-entry breakdown. -/
theorem breakdown_section_emission_witness :
    screenshotSectionStr [("screenshot_1", Json.str "")] = "\n## Screenshot Analysis\n\n" :=
  (breakdown_section_emission [("screenshot_1", Json.str "")]).2 (by decide)
    (List.cons_ne_nil _ _)

/-- Counterexample to C1 as stated: in the spec's own worked scenario the
populated field `error_type = "runtime"` does not occur verbatim in the
rendered output (only its title-cased form does). -/
theorem render_contains_fields_counterexample :
    scenarioR.error_type = "runtime" ∧
    ("runtime" == "") = false ∧
    strContainsB (format_json_for_display scenarioR.toJson) "runtime" = false ∧
    ¬ ContainsP "runtime" (format_json_for_display scenarioR.toJson) := by
  refine ⟨rfl, by decide, by decide, fun hc => ?_⟩
  have ht := (strContainsB_iff (format_json_for_display scenarioR.toJson) "runtime").mpr hc
  have hf : strContainsB (format_json_for_display scenarioR.toJson) "runtime" = false := by
    decide
  rw [hf] at ht
  cases ht

/-- C1 (amended): for every all-fields-populated result, the rendered
output contains verbatim the extracted text, location, language, IDE,
framework, solution, screenshot count, and every non-empty breakdown
description; the error type and severity appear in title-cased form and
the confidence as a rounded percentage with a `%` suffix. -/
theorem render_contains_fields (r : AnalysisResultR)
    (hbd : ∀ kd ∈ r.breakdown, (kd.2 == "") = false) :
    ContainsP r.extracted_text (format_json_for_display r.toJson) ∧
    ContainsP r.location (format_json_for_display r.toJson) ∧
    ContainsP r.language (format_json_for_display r.toJson) ∧
    ContainsP r.ide (format_json_for_display r.toJson) ∧
    ContainsP r.framework (format_json_for_display r.toJson) ∧
    ContainsP r.solution (format_json_for_display r.toJson) ∧
    ContainsP (pyTitle r.error_type) (format_json_for_display r.toJson) ∧
    ContainsP (pyTitle r.severity) (format_json_for_display r.toJson) ∧
    ContainsP (jsonNumRepr r.screenshots_analysed) (format_json_for_display r.toJson) ∧
    ContainsP (pctRepr r.confidence ++ "%") (format_json_for_display r.toJson) ∧
    (∀ kd ∈ r.breakdown, ContainsP kd.2 (format_json_for_display r.toJson)) := by
  rw [format_json_for_display_toJson]
  unfold renderR
  refine ⟨?_, ?_, ?_, ?_, ?_, ?_, ?_, ?_, ?_, ?_, ?_⟩
  · iterate 5 apply containsP_append_left
    exact containsP_append_right _ (containsP_self _)
  · iterate 17 apply containsP_append_left
    exact containsP_append_right _ (containsP_self _)
  · iterate 15 apply containsP_append_left
    exact containsP_append_right _ (containsP_self _)
  · iterate 11 apply containsP_append_left
    exact containsP_append_right _ (containsP_self _)
  · iterate 9 apply containsP_append_left
    exact containsP_append_right _ (containsP_self _)
  · iterate 3 apply containsP_append_left
    exact containsP_append_right _ (containsP_self _)
  · iterate 21 apply containsP_append_left
    exact containsP_append_right _ (containsP_self _)
  · iterate 19 apply containsP_append_left
    exact containsP_append_right _ (containsP_self _)
  · iterate 13 apply containsP_append_left
    exact containsP_append_right _ (containsP_self _)
  · exact containsP_append_pair _ _ _
  · intro kd hm
    iterate 7 apply containsP_append_left
    apply containsP_append_right
    exact containsP_screenshotSection hm (hbd kd hm)

/-- Witness for C1 (amended) at the spec's worked scenario. -/
theorem render_contains_fields_witness :
    (∀ kd ∈ scenarioR.breakdown, (kd.2 == "") = false) ∧
    ContainsP "NullPointerException" (format_json_for_display scenarioR.toJson) ∧
    (∀ kd ∈ scenarioR.breakdown,
      ContainsP kd.2 (format_json_for_display scenarioR.toJson)) :=
  ⟨by decide,
   (render_contains_fields scenarioR (by decide)).1,
   (render_contains_fields scenarioR (by decide)).2.2.2.2.2.2.2.2.2.2⟩

/-- Counterexample to C2 as stated: with breakdown keys 1..3 present but
iterated in the order 3, 1, 2, the rendered output lists the Screenshot 3
entry before the Screenshot 1 entry. -/
theorem breakdown_order_counterexample :
    strFindIdx (format_json_for_display reorderedData) "**Screenshot 3:**" = some 256 ∧
    strFindIdx (format_json_for_display reorderedData) "**Screenshot 1:**" = some 278 ∧
    256 < 278 :=
  ⟨by decide, by decide, by decide⟩

/-- C2 (amended): when the breakdown dict iterates keys `screenshot_1`,
`screenshot_2`, `screenshot_3` in that (insertion) order with non-empty
descriptions, the rendered output contains the three entry lines
consecutively in ascending ordinal order. -/
theorem breakdown_order (r : AnalysisResultR) (d1 d2 d3 : String)
    (hbd : r.breakdown = [("screenshot_1", d1), ("screenshot_2", d2), ("screenshot_3", d3)])
    (h1 : (d1 == "") = false) (h2 : (d2 == "") = false) (h3 : (d3 == "") = false) :
    screenshotLine "screenshot_1" (.str d1) = "**Screenshot 1:** " ++ d1 ++ "  \n" ∧
    screenshotLine "screenshot_2" (.str d2) = "**Screenshot 2:** " ++ d2 ++ "  \n" ∧
    screenshotLine "screenshot_3" (.str d3) = "**Screenshot 3:** " ++ d3 ++ "  \n" ∧
    ContainsP
      (screenshotLine "screenshot_1" (.str d1) ++
        (screenshotLine "screenshot_2" (.str d2) ++ screenshotLine "screenshot_3" (.str d3)))
      (format_json_for_display r.toJson) := by
  refine ⟨rfl, rfl, rfl, ?_⟩
  rw [format_json_for_display_toJson]
  unfold renderR
  rw [hbd]
  iterate 7 apply containsP_append_left
  apply containsP_append_right
  have e1 : jsonTruthy (Json.str d1) = true := by simp [jsonTruthy, h1]
  have e2 : jsonTruthy (Json.str d2) = true := by simp [jsonTruthy, h2]
  have e3 : jsonTruthy (Json.str d3) = true := by simp [jsonTruthy, h3]
  have hsec : screenshotSectionStr (breakdownJson
      [("screenshot_1", d1), ("screenshot_2", d2), ("screenshot_3", d3)]) =
      "\n## Screenshot Analysis\n\n" ++
        (screenshotLine "screenshot_1" (.str d1) ++
          (screenshotLine "screenshot_2" (.str d2) ++
            (screenshotLine "screenshot_3" (.str d3) ++ ""))) := by
    show "\n## Screenshot Analysis\n\n" ++
        ((if jsonTruthy (Json.str d1) then screenshotLine "screenshot_1" (Json.str d1) else "") ++
          ((if jsonTruthy (Json.str d2) then screenshotLine "screenshot_2" (Json.str d2) else "") ++
            ((if jsonTruthy (Json.str d3) then screenshotLine "screenshot_3" (Json.str d3) else "") ++
              ""))) = _
    rw [e1, e2, e3]
    simp
  rw [hsec]
  apply containsP_append_right
  refine ⟨[], [], ?_⟩
  simp [dataAppend]

/-- Witness for C2 (amended) at concrete descriptions. -/
theorem breakdown_order_witness :
    ContainsP
      (screenshotLine "screenshot_1" (.str "A") ++
        (screenshotLine "screenshot_2" (.str "B") ++ screenshotLine "screenshot_3" (.str "C")))
      (format_json_for_display (AnalysisResultR.mk ⟨3, 0⟩ "E" "runtime" "critical" "L" "G"
        "I" "F" [("screenshot_1", "A"), ("screenshot_2", "B"), ("screenshot_3", "C")]
        "S" ⟨82, 2⟩).toJson) :=
  (breakdown_order
    (AnalysisResultR.mk ⟨3, 0⟩ "E" "runtime" "critical" "L" "G" "I" "F"
      [("screenshot_1", "A"), ("screenshot_2", "B"), ("screenshot_3", "C")] "S" ⟨82, 2⟩)
    "A" "B" "C" rfl (by decide) (by decide) (by decide)).2.2.2

end App
